import Mathlib

/-
Verification of the Conversation Risk and Quality Scoring Engine
(SentimentAssistant repository). The Python modules under src/modules are
shallowly embedded below: floats become exact rationals, Python dicts with
optional keys become structures with Option fields plus the getD defaults
the code applies, and every call to the external judge service is
represented by an explicit outcome value (failure, unparseable content, or
a parsed object with possibly missing fields), so that the fallback logic
of the code is captured exactly.
-/

namespace SentimentAssistant

/-- Clamp a rational to the interval [0,1]; mirrors the Python idiom
max(0.0, min(1.0, x)) used throughout the repository. -/
def clamp01 (x : ℚ) : ℚ := max 0 (min 1 x)

/-- Arithmetic mean of a list of rationals (sum divided by length; 0 on the
empty list because rational division by zero is 0 in Lean). -/
def listAvg (l : List ℚ) : ℚ := l.sum / l.length

/- ---------------------------------------------------------------- -/
/- modules/sentiment_analysis.py                                     -/
/- ---------------------------------------------------------------- -/

/-- Range table scan: walks a list of ((lo, hi), label) pairs and returns
the first label whose half-open range [lo, hi) holds the score. Mirrors
the for-loop over the range-keyed dict in _get_sentiment_label and
_get_risk_level (Python dicts iterate in insertion order). -/
def lookupRange : List ((ℚ × ℚ) × String) → ℚ → Option String
  | [], _ => none
  | ((lo, hi), lab) :: rest, s =>
      if lo ≤ s ∧ s < hi then some lab else lookupRange rest s

/-- The sentiment_labels table of SentimentAnalyzer.__init__, in insertion
order. -/
def sentimentLabelsTable : List ((ℚ × ℚ) × String) :=
  [((0, 2/10), "very_negative"),
   ((2/10, 4/10), "negative"),
   ((4/10, 6/10), "neutral"),
   ((6/10, 8/10), "positive"),
   ((8/10, 1), "very_positive")]

/-- SentimentAnalyzer._get_sentiment_label: scan the table, and on no match
return "very_positive" when score >= 0.8 else "very_negative". -/
def getSentimentLabel (score : ℚ) : String :=
  match lookupRange sentimentLabelsTable score with
  | some lab => lab
  | none => if score ≥ 8/10 then "very_positive" else "very_negative"

/-- Parsed JSON object of the sentiment judge reply; each field may be
absent, matching result.get(key, default) in analyze_sentiment. -/
structure SentimentJson where
  sentiment_score : Option ℚ
  confidence : Option ℚ
  primary_emotion : Option String
  urgency : Option ℚ
  indicators : Option (List String)

/-- Outcome of the judge call made by analyze_sentiment: the call raises
(network error or timeout), the returned content is not parseable JSON
(json.loads raises), or a parsed object. -/
inductive SentimentJudgeOutcome where
  | failure
  | malformed
  | parsed (r : SentimentJson)

/-- Result dict of SentimentAnalyzer.analyze_sentiment, without the
analysis_timestamp field (wall-clock time, outside the model). -/
structure SentimentResult where
  sentiment_score : ℚ
  sentiment_label : String
  confidence : ℚ
  primary_emotion : String
  urgency : ℚ
  indicators : List String
deriving DecidableEq

/-- SentimentAnalyzer.analyze_sentiment: on a raised judge call or
unparseable reply, both caught by the broad except, return the fixed
neutral fallback; otherwise clamp the numeric fields to [0,1], apply the
per-field defaults of result.get, and label the clamped score. The input
text only feeds the prompt, so the result depends only on the outcome. -/
def analyzeSentiment (_text : String) (outcome : SentimentJudgeOutcome) :
    SentimentResult :=
  match outcome with
  | .failure =>
      ⟨1/2, "neutral", 1/10, "neutral", 1/2, ["analysis_failed"]⟩
  | .malformed =>
      ⟨1/2, "neutral", 1/10, "neutral", 1/2, ["analysis_failed"]⟩
  | .parsed r =>
      let score := clamp01 (r.sentiment_score.getD (1/2))
      ⟨score, getSentimentLabel score, clamp01 (r.confidence.getD (1/2)),
       r.primary_emotion.getD "neutral", clamp01 (r.urgency.getD (1/2)),
       r.indicators.getD []⟩

/-- Decides whether the pattern list is an initial segment of the target
list; building block for the Python substring test. -/
def listStartsWith : List Char → List Char → Bool
  | [], _ => true
  | _ :: _, [] => false
  | a :: as, b :: bs => a = b && listStartsWith as bs

/-- Decides whether the pattern occurs contiguously inside the haystack;
mirrors the Python expression keyword in text. -/
def strContains (hay pat : List Char) : Bool :=
  match hay with
  | [] => listStartsWith pat []
  | c :: t => listStartsWith pat (c :: t) || strContains t pat

/-- ASCII lowercasing of one character; mirrors str.lower applied by the
source to its ASCII keyword matching (all keywords are ASCII). -/
def charToLower (c : Char) : Char :=
  if 65 ≤ c.toNat ∧ c.toNat ≤ 90 then Char.ofNat (c.toNat + 32) else c

/-- ASCII lowercasing of a character list; mirrors text.lower(). -/
def pyLower (l : List Char) : List Char := l.map charToLower

/-- The escalation keyword list of detect_escalation_triggers. -/
def escalationTriggerKeywords : List String :=
  ["manager", "supervisor", "complaint", "unacceptable",
   "terrible", "awful", "worst", "cancel", "refund",
   "lawsuit", "attorney", "fraud", "scam", "useless"]

/-- Outcome of the judge call in detect_escalation_triggers: the call (or
parsing its reply) raises, or it yields a parsed object with possibly
missing fields. -/
inductive TriggerJudgeOutcome where
  | failure
  | parsed (likelihood : Option ℚ) (severity : Option String)
      (reasoning : Option String)

/-- Result dict of detect_escalation_triggers. -/
structure TriggerResult where
  triggers_found : List String
  escalation_likelihood : ℚ
  severity : String
  reasoning : String
  keyword_count : ℕ
deriving DecidableEq

/-- SentimentAnalyzer.detect_escalation_triggers: collect the keywords that
occur in the lowercased text; with no keyword, return the zero result
without consulting the judge; with keywords, consult the judge, where a
raised call lands in the broad except returning severity unknown and
likelihood 0, and a parsed reply uses defaults 0.5 and medium for missing
fields. -/
def detectEscalationTriggers (text : String) (j : TriggerJudgeOutcome) :
    TriggerResult :=
  let textLower := pyLower text.data
  let triggers := escalationTriggerKeywords.filter
    (fun kw => strContains textLower kw.data)
  if triggers = [] then
    ⟨[], 0, "low", "No escalation keywords detected", 0⟩
  else
    match j with
    | .failure => ⟨[], 0, "unknown", "Analysis failed", 0⟩
    | .parsed l s r =>
        ⟨triggers, l.getD (1/2), s.getD "medium", r.getD "",
         triggers.length⟩

/- ---------------------------------------------------------------- -/
/- modules/escalation_predictor.py                                   -/
/- ---------------------------------------------------------------- -/

/-- The risk_levels table of EscalationPredictor.__init__, in insertion
order. -/
def riskLevelsTable : List ((ℚ × ℚ) × String) :=
  [((0, 3/10), "low"),
   ((3/10, 6/10), "medium"),
   ((6/10, 8/10), "high"),
   ((8/10, 1), "critical")]

/-- EscalationPredictor._get_risk_level: scan the table, and on no match
return "critical" when score >= 0.8 else "low". -/
def getRiskLevel (score : ℚ) : String :=
  match lookupRange riskLevelsTable score with
  | some lab => lab
  | none => if score ≥ 8/10 then "critical" else "low"

/-- Feature bag consumed by _rule_based_prediction. Fields are optional
because the Python features dict may lack any key; the function reads them
with the listed defaults of features.get. Counts are naturals, mirroring
len based and sum of indicator based Python values, which are never
negative. -/
structure Features where
  current_sentiment : Option ℚ
  escalation_keywords : Option ℕ
  urgency_indicators : Option ℕ
  message_count : Option ℕ
  sentiment_trend : Option ℚ

/-- EscalationPredictor._rule_based_prediction: sequential accumulation of
the five contributions onto risk_score, then min(1.0, risk_score). -/
def ruleBasedPrediction (f : Features) : ℚ :=
  let risk0 : ℚ := 0
  let cs := f.current_sentiment.getD (1/2)
  let risk1 :=
    if cs < 3/10 then risk0 + 4/10
    else if cs < 5/10 then risk0 + 2/10
    else risk0
  let ek := f.escalation_keywords.getD 0
  let risk2 := risk1 + min (3/10) ((ek : ℚ) * (1/10))
  let ui := f.urgency_indicators.getD 0
  let risk3 := risk2 + min (2/10) ((ui : ℚ) * (1/10))
  let mc := f.message_count.getD 0
  let risk4 :=
    if mc > 10 then risk3 + 3/10
    else if mc > 5 then risk3 + 1/10
    else risk3
  let tr := f.sentiment_trend.getD 0
  let risk5 := if tr < -(2/10) then risk4 + 3/10 else risk4
  min 1 risk5

/-- A conversation history message as read by
_extract_conversation_features: sender tag, content, and an optional
sentiment_score key. -/
structure Msg where
  sender : String
  content : String
  sentiment_score : Option ℚ
deriving DecidableEq

/-- The sentiment_scores list of _extract_conversation_features: the
sentiment_score values of the customer messages that carry one, in
order. -/
def sentimentScores (history : List Msg) : List ℚ :=
  (history.filter (fun m => m.sender = "customer")).filterMap
    (fun m => m.sentiment_score)

/-- The value that _extract_conversation_features stores under the
sentiment_trend key: none when the history is empty (the function returns
an empty dict), the initial default 0.5 when fewer than 2 customer
messages carry a sentiment score, and otherwise the sum of the last three
scores divided by min(3, n) minus the sum of the first three scores
divided by min(3, n). -/
def extractedSentimentTrend (history : List Msg) : Option ℚ :=
  if history = [] then none
  else
    let scores := sentimentScores history
    if 2 ≤ scores.length then
      let d : ℚ := min 3 (scores.length : ℚ)
      some ((scores.drop (scores.length - 3)).sum / d -
            (scores.take 3).sum / d)
    else some (1/2)

/- ---------------------------------------------------------------- -/
/- modules/evaluation.py                                             -/
/- ---------------------------------------------------------------- -/

/-- A retrieved document as read by RAGEvaluator: content, title and an
optional similarity score key read via doc.get with default 0.5. -/
structure Doc where
  content : String
  title : String
  score : Option ℚ
deriving DecidableEq

/-- Outcome of one numeric judge rating inside RAGEvaluator: none when the
call raises, the reply is unparseable, or the parsed object lacks the
score key (all of which produce the per-metric default 0.5 before
clamping, and clamp01 (1/2) = 1/2); some x when the parsed object carries
the raw value x, which each sub-metric clamps to [0,1]. -/
abbrev MetricJudge := Option ℚ

/-- Judge outcomes for the calls evaluate_response may issue: one per
prompt-based sub-metric, and one per retrieved document for the
retrieval-accuracy loop (indexed by document position). -/
structure EvalJudge where
  precisionScore : MetricJudge
  recallScore : MetricJudge
  faithfulnessScore : MetricJudge
  relevancyScore : MetricJudge
  docRelevance : ℕ → Option ℚ

/-- RAGEvaluator._evaluate_context_precision: 0.0 with no documents, else
the clamped judge rating with fallback 0.5. -/
def evaluateContextPrecision (docs : List Doc) (j : MetricJudge) : ℚ :=
  if docs = [] then 0
  else match j with
    | none => 1/2
    | some x => clamp01 x

/-- RAGEvaluator._evaluate_context_recall: 0.0 with no documents; without
ground truth, the heuristic min(1.0, mean of document scores times 1.2)
with no judge call; with ground truth, the clamped judge rating with
fallback 0.5. -/
def evaluateContextRecall (docs : List Doc) (groundTruth : Option String)
    (j : MetricJudge) : ℚ :=
  if docs = [] then 0
  else match groundTruth with
    | none =>
        let rel := docs.map (fun d => d.score.getD (1/2))
        min 1 (listAvg rel * (12/10))
    | some _ =>
        match j with
        | none => 1/2
        | some x => clamp01 x

/-- RAGEvaluator._evaluate_faithfulness: 0.5 with no documents, else the
clamped judge rating with fallback 0.5. -/
def evaluateFaithfulness (docs : List Doc) (j : MetricJudge) : ℚ :=
  if docs = [] then 1/2
  else match j with
    | none => 1/2
    | some x => clamp01 x

/-- RAGEvaluator._evaluate_answer_relevancy: the clamped judge rating with
fallback 0.5; no dependency on the documents. -/
def evaluateAnswerRelevancy (j : MetricJudge) : ℚ :=
  match j with
  | none => 1/2
  | some x => clamp01 x

/-- RAGEvaluator._evaluate_retrieval_accuracy: 0.0 with no documents; else
per document combine its stored score (default 0.5) with the raw judge
rating by simple average, keeping the stored score alone when the inner
judge call fails, and aggregate with rank weights 1/(rank+1) normalised by
the weight sum. -/
def evaluateRetrievalAccuracy (docs : List Doc) (js : ℕ → Option ℚ) : ℚ :=
  if docs = [] then 0
  else
    let rel := docs.enum.map (fun p =>
      match js p.1 with
      | some ai => (p.2.score.getD (1/2) + ai) / 2
      | none => p.2.score.getD (1/2))
    let weights := (List.range rel.length).map (fun i => (1 : ℚ) / (i + 1))
    let weightedSum := ((rel.zip weights).map (fun p => p.1 * p.2)).sum
    let totalWeight := weights.sum
    if totalWeight > 0 then weightedSum / totalWeight else 0

/-- Association list lookup mirroring metrics.get(name, 0.0) over the dict
passed to _calculate_overall_score. -/
def lookupMetric (k : String) : List (String × ℚ) → Option ℚ
  | [] => none
  | (k2, v) :: rest => if k = k2 then some v else lookupMetric k rest

/-- The weights dict of _calculate_overall_score, in insertion order. -/
def overallWeights : List (String × ℚ) :=
  [("context_precision", 2/10),
   ("faithfulness", 3/10),
   ("answer_relevancy", 3/10),
   ("retrieval_accuracy", 2/10)]

/-- RAGEvaluator._calculate_overall_score: sum over the weights table of
metrics.get(metric, 0.0) times the weight. -/
def calculateOverallScore (metrics : List (String × ℚ)) : ℚ :=
  (overallWeights.map
    (fun p => (lookupMetric p.1 metrics).getD 0 * p.2)).sum

/-- The metrics sub-dict of the result of evaluate_response, without the
evaluation_latency field (wall-clock time, outside the model). -/
structure EvalMetrics where
  context_precision : ℚ
  context_recall : ℚ
  faithfulness : ℚ
  answer_relevancy : ℚ
  retrieval_accuracy : ℚ

/-- Result dict of evaluate_response, without the timestamp field
(wall-clock time, outside the model). -/
structure EvalResult where
  query : String
  response : String
  metrics : EvalMetrics
  retrieved_docs_count : ℕ
  overall_score : ℚ

/-- The keys of the dict literal returned by the success path of
RAGEvaluator.evaluate_response, transcribed from the source. -/
def evaluationResultKeys : List String :=
  ["timestamp", "query", "response", "metrics", "retrieved_docs_count",
   "overall_score"]

/-- The keys of the metrics sub-dict of that result, transcribed from the
source. -/
def evaluationMetricsKeys : List String :=
  ["context_precision", "context_recall", "faithfulness",
   "answer_relevancy", "retrieval_accuracy", "evaluation_latency"]

/-- RAGEvaluator.evaluate_response: compute the five sub-metrics and the
overall score from the four-entry metrics dict (context_recall is not
passed to _calculate_overall_score). -/
def evaluateResponse (query response : String) (docs : List Doc)
    (groundTruth : Option String) (j : EvalJudge) : EvalResult :=
  let cp := evaluateContextPrecision docs j.precisionScore
  let cr := evaluateContextRecall docs groundTruth j.recallScore
  let fa := evaluateFaithfulness docs j.faithfulnessScore
  let ar := evaluateAnswerRelevancy j.relevancyScore
  let ra := evaluateRetrievalAccuracy docs j.docRelevance
  ⟨query, response, ⟨cp, cr, fa, ar, ra⟩, docs.length,
   calculateOverallScore
     [("context_precision", cp), ("faithfulness", fa),
      ("answer_relevancy", ar), ("retrieval_accuracy", ra)]⟩

/- ---------------------------------------------------------------- -/
/- modules/response_generator.py                                     -/
/- ---------------------------------------------------------------- -/

/-- Sentiment dict as read by _determine_response_tone via
sentiment_data.get with defaults 0.5, neutral, 0.5. -/
structure SentimentData where
  sentiment_score : Option ℚ
  primary_emotion : Option String
  urgency : Option ℚ

/-- ResponseGenerator._determine_response_tone, translated branch for
branch: satisfaction rules first (each guarded by satisfaction_avg being
present), then urgency, then the sentiment cascade. The conversation
history parameter of the Python signature is never read by the body. -/
def determineResponseTone (sd : SentimentData) (_history : List Msg)
    (satisfactionAvg : Option ℚ) : String :=
  let score := sd.sentiment_score.getD (1/2)
  let emotion := sd.primary_emotion.getD "neutral"
  let urgency := sd.urgency.getD (1/2)
  let core :=
    if urgency > 8/10 then "urgent"
    else if score < 3/10 then
      (if emotion = "anger" ∨ emotion = "frustration" then "empathetic"
       else "apologetic")
    else if score < 5/10 then "empathetic"
    else if score < 7/10 then "professional"
    else "reassuring"
  match satisfactionAvg with
  | some a =>
      if a < 3 then (if score < 4/10 then "apologetic" else "empathetic")
      else if a > 43/10 ∧ score > 6/10 then "reassuring"
      else core
  | none => core

/- ---------------------------------------------------------------- -/
/- modules/customer_satisfaction.py                                  -/
/- ---------------------------------------------------------------- -/

/-- The rating column of a feedback slice viewed as rationals, the form in
which Python float division consumes the integer ratings. -/
def castRatings (l : List ℤ) : List ℚ := l.map (fun rr : ℤ => (rr : ℚ))

/-- Python list slice l[i:] for an arbitrary integer start index:
a negative index counts from the end (clamped at 0), a non-negative index
drops that many elements. -/
def pySliceFrom (l : List ℤ) (i : ℤ) : List ℤ :=
  if i < 0 then l.drop (l.length + i).toNat else l.drop i.toNat

/-- CustomerSatisfactionTracker.average_rating over the rating column of
the history: last_n of None or 0 is falsy, so the whole history is used;
any other last_n selects history[-last_n:]. Returns none on an empty
selection, else the mean. -/
def averageRating (lastN : Option ℤ) (history : List ℤ) : Option ℚ :=
  let data :=
    match lastN with
    | none => history
    | some n => if n = 0 then history else pySliceFrom history (-n)
  if data = [] then none
  else some ((castRatings data).sum / (data.length : ℚ))

/-- CustomerSatisfactionTracker.rating_trend over the rating column:
insufficient_data below 2 times the window, else compare the first-window
mean with the last-window mean against the 0.4 band. The slice
history[-window:] is the whole list when window is 0, matching Python. -/
def ratingTrend (history : List ℤ) (window : ℕ) : String :=
  if history.length < window * 2 then "insufficient_data"
  else
    let first := history.take window
    let last := if window = 0 then history
                else history.drop (history.length - window)
    let firstAvg := (castRatings first).sum / (window : ℚ)
    let lastAvg := (castRatings last).sum / (window : ℚ)
    if lastAvg > firstAvg + 4/10 then "improving"
    else if lastAvg < firstAvg - 4/10 then "declining"
    else "stable"

/- ---------------------------------------------------------------- -/
/- Definitions written from the wording of the specification, used    -/
/- only to compare against the source embeddings above.              -/
/- ---------------------------------------------------------------- -/

/-- Modelled from the spec: the five half-open sentiment buckets of 4.2
with the upper bucket closed, written as a nested conditional that is
manifestly total on [0,1] and sends each boundary to the upper bucket. -/
def specSentimentBucket (s : ℚ) : String :=
  if s < 2/10 then "very_negative"
  else if s < 4/10 then "negative"
  else if s < 6/10 then "neutral"
  else if s < 8/10 then "positive"
  else "very_positive"

/-- Modelled from the spec: the four half-open risk buckets of 4.3 with
the upper bucket closed. -/
def specRiskBucket (s : ℚ) : String :=
  if s < 3/10 then "low"
  else if s < 6/10 then "medium"
  else if s < 8/10 then "high"
  else "critical"

/-- Modelled from the spec: the rule-based fallback of 4.3 as a plain sum
of five independently capped contributions, clamped to 1.0 at the end. -/
def specFallbackFormula (f : Features) : ℚ :=
  let cs := f.current_sentiment.getD (1/2)
  let t1 : ℚ := if cs < 3/10 then 4/10 else if cs < 5/10 then 2/10 else 0
  let t2 : ℚ := min (3/10) ((f.escalation_keywords.getD 0 : ℚ) * (1/10))
  let t3 : ℚ := min (2/10) ((f.urgency_indicators.getD 0 : ℚ) * (1/10))
  let mc := f.message_count.getD 0
  let t4 : ℚ := if mc > 10 then 3/10 else if mc > 5 then 1/10 else 0
  let t5 : ℚ := if f.sentiment_trend.getD 0 < -(2/10) then 3/10 else 0
  min 1 (t1 + t2 + t3 + t4 + t5)

/-- Modelled from the spec: the seven tone rules of 4.5 in their stated
precedence order, first match wins, over resolved sentiment values. -/
def specToneSelect (score : ℚ) (emotion : String) (urgency : ℚ)
    (satisfactionAvg : Option ℚ) : String :=
  let satKnownLtThree : Bool :=
    match satisfactionAvg with
    | some a => decide (a < 3)
    | none => false
  let satKnownHigh : Bool :=
    match satisfactionAvg with
    | some a => decide (a > 43/10)
    | none => false
  if satKnownLtThree then
    (if score < 4/10 then "apologetic" else "empathetic")
  else if satKnownHigh && decide (score > 6/10) then "reassuring"
  else if urgency > 8/10 then "urgent"
  else if score < 3/10 then
    (if emotion = "anger" ∨ emotion = "frustration" then "empathetic"
     else "apologetic")
  else if score < 5/10 then "empathetic"
  else if score < 7/10 then "professional"
  else "reassuring"

/- ---------------------------------------------------------------- -/
/- Theorems                                                          -/
/- ---------------------------------------------------------------- -/

/-- C1: for every feature bag (counts are naturals, hence non-negative),
the rule-based fallback score of EscalationPredictor equals the sum of the
five independently capped contributions clamped to 1.0, and consequently
lies in [0,1]. The fallback is a pure function of the feature bag, so two
calls on identical features return identical scores by definition. -/
theorem ruleBasedPrediction_capped_sum_bounded (f : Features) :
    ruleBasedPrediction f = specFallbackFormula f ∧
    0 ≤ ruleBasedPrediction f ∧ ruleBasedPrediction f ≤ 1 := by
  have heq : ruleBasedPrediction f = specFallbackFormula f := by
    simp only [ruleBasedPrediction, specFallbackFormula]
    split_ifs <;> (congr 1 <;> ring)
  refine ⟨heq, ?_, ?_⟩
  · rw [heq]
    simp only [specFallbackFormula]
    refine le_min (by norm_num) ?_
    refine add_nonneg (add_nonneg (add_nonneg (add_nonneg ?_ ?_) ?_) ?_) ?_
    · split_ifs <;> norm_num
    · exact le_min (by norm_num) (by positivity)
    · exact le_min (by norm_num) (by positivity)
    · split_ifs <;> norm_num
    · split_ifs <;> norm_num
  · rw [heq]
    simp only [specFallbackFormula]
    exact min_le_left _ _

/-- C2: on [0,1] the range-table scans of _get_sentiment_label and
_get_risk_level agree with the total nested-conditional bucket maps of the
spec (so every score gets exactly one label and one level), every interior
boundary resolves to the upper bucket, and 1.0 resolves to the top bucket
through the fallback branch of each scan. -/
theorem bucket_lookups_total (s : ℚ) (h0 : 0 ≤ s) (h1 : s ≤ 1) :
    (getSentimentLabel s = specSentimentBucket s ∧
     getRiskLevel s = specRiskBucket s) ∧
    (getSentimentLabel (2/10) = "negative" ∧
     getSentimentLabel (4/10) = "neutral" ∧
     getSentimentLabel (6/10) = "positive" ∧
     getSentimentLabel (8/10) = "very_positive" ∧
     getSentimentLabel 1 = "very_positive") ∧
    (getRiskLevel (3/10) = "medium" ∧
     getRiskLevel (6/10) = "high" ∧
     getRiskLevel (8/10) = "critical" ∧
     getRiskLevel 1 = "critical") := by
  have nr : ∀ lo hi : ℚ, hi ≤ s → ¬(lo ≤ s ∧ s < hi) :=
    fun _ _ h hc => absurd hc.2 (not_lt.2 h)
  refine ⟨⟨?_, ?_⟩, ?_, ?_⟩
  · simp only [getSentimentLabel, sentimentLabelsTable, lookupRange,
      specSentimentBucket]
    rcases lt_or_le s (2/10) with c1 | c1
    · rw [if_pos ⟨h0, c1⟩, if_pos c1]
    rcases lt_or_le s (4/10) with c2 | c2
    · rw [if_neg (nr _ _ c1), if_pos ⟨c1, c2⟩, if_neg (not_lt.2 c1),
        if_pos c2]
    rcases lt_or_le s (6/10) with c3 | c3
    · rw [if_neg (nr _ _ (by linarith)), if_neg (nr _ _ c2),
        if_pos ⟨c2, c3⟩, if_neg (not_lt.2 c1), if_neg (not_lt.2 c2),
        if_pos c3]
    rcases lt_or_le s (8/10) with c4 | c4
    · rw [if_neg (nr _ _ (by linarith)), if_neg (nr _ _ (by linarith)),
        if_neg (nr _ _ c3), if_pos ⟨c3, c4⟩, if_neg (not_lt.2 c1),
        if_neg (not_lt.2 c2), if_neg (not_lt.2 c3), if_pos c4]
    rcases lt_or_le s 1 with c5 | c5
    · rw [if_neg (nr _ _ (by linarith)), if_neg (nr _ _ (by linarith)),
        if_neg (nr _ _ (by linarith)), if_neg (nr _ _ c4),
        if_pos ⟨c4, c5⟩, if_neg (not_lt.2 c1), if_neg (not_lt.2 c2),
        if_neg (not_lt.2 c3), if_neg (not_lt.2 c4)]
    · rw [if_neg (nr _ _ (by linarith)), if_neg (nr _ _ (by linarith)),
        if_neg (nr _ _ (by linarith)), if_neg (nr _ _ (by linarith)),
        if_neg (nr _ _ c5), if_pos (by linarith : s ≥ 8/10),
        if_neg (not_lt.2 c1), if_neg (not_lt.2 c2), if_neg (not_lt.2 c3),
        if_neg (not_lt.2 c4)]
  · simp only [getRiskLevel, riskLevelsTable, lookupRange, specRiskBucket]
    rcases lt_or_le s (3/10) with c1 | c1
    · rw [if_pos ⟨h0, c1⟩, if_pos c1]
    rcases lt_or_le s (6/10) with c2 | c2
    · rw [if_neg (nr _ _ c1), if_pos ⟨c1, c2⟩, if_neg (not_lt.2 c1),
        if_pos c2]
    rcases lt_or_le s (8/10) with c3 | c3
    · rw [if_neg (nr _ _ (by linarith)), if_neg (nr _ _ c2),
        if_pos ⟨c2, c3⟩, if_neg (not_lt.2 c1), if_neg (not_lt.2 c2),
        if_pos c3]
    rcases lt_or_le s 1 with c4 | c4
    · rw [if_neg (nr _ _ (by linarith)), if_neg (nr _ _ (by linarith)),
        if_neg (nr _ _ c3), if_pos ⟨c3, c4⟩, if_neg (not_lt.2 c1),
        if_neg (not_lt.2 c2), if_neg (not_lt.2 c3)]
    · rw [if_neg (nr _ _ (by linarith)), if_neg (nr _ _ (by linarith)),
        if_neg (nr _ _ (by linarith)), if_neg (nr _ _ c4),
        if_pos (by linarith : s ≥ 8/10), if_neg (not_lt.2 c1),
        if_neg (not_lt.2 c2), if_neg (not_lt.2 c3)]
  · norm_num [getSentimentLabel, sentimentLabelsTable, lookupRange]
  · norm_num [getRiskLevel, riskLevelsTable, lookupRange]

/-- C2 witness: instance of the bucket theorem at the concrete score
0.7. -/
theorem bucket_lookups_total_witness :
    getSentimentLabel (7/10) = specSentimentBucket (7/10) ∧
    getRiskLevel (7/10) = specRiskBucket (7/10) :=
  (bucket_lookups_total (7/10) (by norm_num) (by norm_num)).1

/-- C3: for every query, response, optional ground truth and judge
behaviour, evaluating with an empty list of retrieved documents yields
context precision 0, context recall 0, retrieval accuracy 0 and
faithfulness 0.5, and the overall score is the fixed weighted sum over
precision, faithfulness, answer relevancy and retrieval accuracy (recall
excluded), which here collapses to 0.15 plus 0.3 times the answer
relevancy. -/
theorem evaluateResponse_empty_docs (q r : String) (gt : Option String)
    (j : EvalJudge) :
    (evaluateResponse q r [] gt j).metrics.context_precision = 0 ∧
    (evaluateResponse q r [] gt j).metrics.context_recall = 0 ∧
    (evaluateResponse q r [] gt j).metrics.retrieval_accuracy = 0 ∧
    (evaluateResponse q r [] gt j).metrics.faithfulness = 1/2 ∧
    (evaluateResponse q r [] gt j).overall_score =
      (2/10) * (evaluateResponse q r [] gt j).metrics.context_precision +
      (3/10) * (evaluateResponse q r [] gt j).metrics.faithfulness +
      (3/10) * (evaluateResponse q r [] gt j).metrics.answer_relevancy +
      (2/10) * (evaluateResponse q r [] gt j).metrics.retrieval_accuracy ∧
    (evaluateResponse q r [] gt j).overall_score =
      3/20 + (3/10) * (evaluateResponse q r [] gt j).metrics.answer_relevancy := by
  have hcp : (evaluateResponse q r [] gt j).metrics.context_precision = 0 :=
    rfl
  have hcr : (evaluateResponse q r [] gt j).metrics.context_recall = 0 := by
    cases gt <;> rfl
  have hra : (evaluateResponse q r [] gt j).metrics.retrieval_accuracy = 0 :=
    rfl
  have hfa :
      (evaluateResponse q r [] gt j).metrics.faithfulness = 1/2 := rfl
  have har : (evaluateResponse q r [] gt j).metrics.answer_relevancy =
      evaluateAnswerRelevancy j.relevancyScore := rfl
  have hov : (evaluateResponse q r [] gt j).overall_score =
      ([(0:ℚ) * (2/10), (1/2) * (3/10),
        evaluateAnswerRelevancy j.relevancyScore * (3/10),
        0 * (2/10)]).sum := rfl
  refine ⟨hcp, hcr, hra, hfa, ?_, ?_⟩
  · rw [hov, hcp, hfa, har, hra]
    simp only [List.sum_cons, List.sum_nil]
    ring
  · rw [hov, har]
    simp only [List.sum_cons, List.sum_nil]
    ring

/-- C4: whenever the sentiment judge call raises or its reply is not
parseable, analyze_sentiment returns exactly the neutral fallback: score
0.5, label neutral, confidence 0.1, primary emotion neutral, urgency 0.5,
indicators analysis_failed, for every input text. -/
theorem analyzeSentiment_failure_fallback (text : String)
    (outcome : SentimentJudgeOutcome)
    (h : outcome = SentimentJudgeOutcome.failure ∨
         outcome = SentimentJudgeOutcome.malformed) :
    analyzeSentiment text outcome =
      ⟨1/2, "neutral", 1/10, "neutral", 1/2, ["analysis_failed"]⟩ := by
  rcases h with rfl | rfl <;> rfl

/-- C4 witness: the fallback at a concrete text and a raised judge
call. -/
theorem analyzeSentiment_failure_fallback_witness :
    analyzeSentiment "My order is late" SentimentJudgeOutcome.failure =
      ⟨1/2, "neutral", 1/10, "neutral", 1/2, ["analysis_failed"]⟩ :=
  analyzeSentiment_failure_fallback "My order is late"
    SentimentJudgeOutcome.failure (Or.inl rfl)

/-- C5 counterexample: a history holding one customer message without a
sentiment score has fewer than 2 scored messages, yet the extracted
sentiment trend is the dict default 0.5, not 0 as the claim states. -/
theorem sentimentTrend_default_cex :
    extractedSentimentTrend [⟨"customer", "my parcel is lost", none⟩] =
      some (1/2) ∧ some ((1:ℚ)/2) ≠ some (0:ℚ) := by
  constructor
  · rfl
  · simp only [ne_eq, Option.some.injEq]
    norm_num

/-- C5 amended: with at least 2 scored customer messages the extracted
sentiment trend is the average of the most recent min(3, n) prior customer
sentiment scores minus the average of the earliest min(3, n); with fewer
than 2 scored messages it is the default 0.5 when the history is nonempty,
and the feature is absent when the history is empty. -/
theorem extractedSentimentTrend_spec (h : List Msg) :
    (h = [] → extractedSentimentTrend h = none) ∧
    (h ≠ [] → (sentimentScores h).length < 2 →
      extractedSentimentTrend h = some (1/2)) ∧
    (2 ≤ (sentimentScores h).length →
      extractedSentimentTrend h =
        some (listAvg ((sentimentScores h).drop
                ((sentimentScores h).length - 3)) -
              listAvg ((sentimentScores h).take 3))) := by
  refine ⟨?_, ?_, ?_⟩
  · intro he
    simp only [extractedSentimentTrend, if_pos he]
  · intro hne hlt
    simp only [extractedSentimentTrend, if_neg hne]
    rw [if_neg (by omega)]
  · intro h2
    have hne : h ≠ [] := by
      intro he
      rw [he] at h2
      simp [sentimentScores] at h2
    simp only [extractedSentimentTrend, if_neg hne]
    rw [if_pos h2]
    have hdrop : ((sentimentScores h).drop
        ((sentimentScores h).length - 3)).length =
        min 3 (sentimentScores h).length := by
      rw [List.length_drop]
      omega
    have htake : ((sentimentScores h).take 3).length =
        min 3 (sentimentScores h).length := by
      rw [List.length_take]
    simp only [listAvg, hdrop, htake, Option.some.injEq]
    have hc : ((min 3 (sentimentScores h).length : ℕ) : ℚ) =
        min 3 ((sentimentScores h).length : ℚ) := by
      push_cast
      rfl
    rw [hc]

/-- C5 amended witness: instance of the trend characterisation at a
concrete history with three scored customer messages. -/
theorem extractedSentimentTrend_spec_witness :
    2 ≤ (sentimentScores
      [⟨"customer", "a", some (2/10)⟩, ⟨"agent", "b", none⟩,
       ⟨"customer", "c", some (4/10)⟩,
       ⟨"customer", "d", some (9/10)⟩]).length ∧
    extractedSentimentTrend
      [⟨"customer", "a", some (2/10)⟩, ⟨"agent", "b", none⟩,
       ⟨"customer", "c", some (4/10)⟩, ⟨"customer", "d", some (9/10)⟩] =
      some (listAvg ((sentimentScores
          [⟨"customer", "a", some (2/10)⟩, ⟨"agent", "b", none⟩,
           ⟨"customer", "c", some (4/10)⟩,
           ⟨"customer", "d", some (9/10)⟩]).drop
            ((sentimentScores
              [⟨"customer", "a", some (2/10)⟩, ⟨"agent", "b", none⟩,
               ⟨"customer", "c", some (4/10)⟩,
               ⟨"customer", "d", some (9/10)⟩]).length - 3)) -
            listAvg ((sentimentScores
              [⟨"customer", "a", some (2/10)⟩, ⟨"agent", "b", none⟩,
               ⟨"customer", "c", some (4/10)⟩,
               ⟨"customer", "d", some (9/10)⟩]).take 3)) :=
  ⟨by simp [sentimentScores],
   (extractedSentimentTrend_spec _).2.2 (by simp [sentimentScores])⟩

/-- C6 counterexample: the dict returned by evaluate_response exposes no
degraded key, neither at top level nor inside its metrics sub-dict, so the
returned assessment cannot contain a degraded flag for any input. -/
theorem evaluation_degraded_key_cex :
    ¬ ("degraded" ∈ evaluationResultKeys ∨
       "degraded" ∈ evaluationMetricsKeys) := by
  decide

/-- C6 amended: the evaluation result carries no degraded flag at all;
whether a sub-metric used its fallback value is not reported to the
caller. -/
theorem evaluation_no_degraded_flag :
    "degraded" ∉ evaluationResultKeys ∧
    "degraded" ∉ evaluationMetricsKeys := by
  decide

/-- C7 counterexample: the text contains the keyword refund, yet when the
judge call raises, detect_escalation_triggers lands in the broad except
and returns likelihood 0 with severity unknown and an empty trigger list,
not likelihood 0.5 with severity medium as the claim states. -/
theorem detectTriggers_judge_failure_cex :
    detectEscalationTriggers "i want a refund" TriggerJudgeOutcome.failure =
      ⟨[], 0, "unknown", "Analysis failed", 0⟩ ∧
    ¬ ((detectEscalationTriggers "i want a refund"
          TriggerJudgeOutcome.failure).escalation_likelihood = 1/2 ∧
       (detectEscalationTriggers "i want a refund"
          TriggerJudgeOutcome.failure).severity = "medium") := by
  have he : detectEscalationTriggers "i want a refund"
      TriggerJudgeOutcome.failure =
      ⟨[], 0, "unknown", "Analysis failed", 0⟩ := rfl
  refine ⟨he, ?_⟩
  rw [he]
  rintro ⟨hl, _⟩
  norm_num at hl

/-- C7 amended: with no keyword in the lowercased text the result is the
zero result for every judge behaviour (the judge is never consulted);
with keywords present, a raised judge call yields the empty unknown
result, while a parsed judge reply missing its fields yields the defaults
likelihood 0.5 and severity medium. -/
theorem detectTriggers_spec (text : String) :
    (escalationTriggerKeywords.filter
        (fun kw => strContains (pyLower text.data) kw.data) = [] →
      ∀ j, detectEscalationTriggers text j =
        ⟨[], 0, "low", "No escalation keywords detected", 0⟩) ∧
    (escalationTriggerKeywords.filter
        (fun kw => strContains (pyLower text.data) kw.data) ≠ [] →
      detectEscalationTriggers text TriggerJudgeOutcome.failure =
        ⟨[], 0, "unknown", "Analysis failed", 0⟩ ∧
      (detectEscalationTriggers text
        (TriggerJudgeOutcome.parsed none none none)).escalation_likelihood
          = 1/2 ∧
      (detectEscalationTriggers text
        (TriggerJudgeOutcome.parsed none none none)).severity = "medium") := by
  constructor
  · intro hf j
    simp only [detectEscalationTriggers]
    rw [if_pos hf]
  · intro hf
    refine ⟨?_, ?_, ?_⟩ <;>
      (simp only [detectEscalationTriggers]; rw [if_neg hf]) <;> rfl

/-- C7 witness: instance of the trigger characterisation at a concrete
text containing the keyword refund and a raised judge call. -/
theorem detectTriggers_spec_witness :
    detectEscalationTriggers "please refund me" TriggerJudgeOutcome.failure
      = ⟨[], 0, "unknown", "Analysis failed", 0⟩ :=
  ((detectTriggers_spec "please refund me").2 (by decide)).1

/-- C8: the tone chooser of ResponseGenerator agrees everywhere with the
seven precedence rules of the spec (first match wins), for every sentiment
value, emotion, urgency, history and optional satisfaction average, and in
particular score 0.2 with urgency 0.9 and unknown satisfaction average
yields urgent. Being a plain function of its inputs it is deterministic. -/
theorem determineResponseTone_spec (score urgency : ℚ) (emotion : String)
    (hist : List Msg) (sat : Option ℚ) :
    determineResponseTone ⟨some score, some emotion, some urgency⟩ hist sat
      = specToneSelect score emotion urgency sat ∧
    determineResponseTone ⟨some (2/10), some "neutral", some (9/10)⟩ [] none
      = "urgent" := by
  constructor
  · cases sat with
    | none => rfl
    | some a =>
        simp only [determineResponseTone, specToneSelect, Option.getD_some,
          decide_eq_true_eq, Bool.and_eq_true]
  · norm_num [determineResponseTone]

/-- C9: the satisfaction rating trend is insufficient_data whenever the
log holds fewer than 2 times window records regardless of values;
otherwise it classifies the difference between the mean of the last window
records and the mean of the first window records against the 0.4 band; the
worked example from the spec gives improving with overall average 3. -/
theorem ratingTrend_spec (history : List ℤ) (window : ℕ)
    (hw : 1 ≤ window) :
    (history.length < window * 2 →
      ratingTrend history window = "insufficient_data") ∧
    (window * 2 ≤ history.length →
      ratingTrend history window =
        (if 4/10 < listAvg (castRatings
              (history.drop (history.length - window))) -
            listAvg (castRatings (history.take window)) then
          "improving"
         else if listAvg (castRatings
              (history.drop (history.length - window))) -
            listAvg (castRatings (history.take window)) <
              -(4/10) then "declining"
         else "stable")) ∧
    ratingTrend [2, 2, 2, 2, 2, 4, 4, 4, 4, 4] 5 = "improving" ∧
    averageRating none [2, 2, 2, 2, 2, 4, 4, 4, 4, 4] = some 3 := by
  refine ⟨?_, ?_, ?_, ?_⟩
  · intro hlt
    simp only [ratingTrend]
    rw [if_pos hlt]
  · intro hge
    have hwin : window ≤ history.length := by omega
    simp only [ratingTrend]
    rw [if_neg (not_lt.2 hge), if_neg (by omega : ¬ window = 0)]
    have e1 : listAvg (castRatings (history.take window)) =
        (castRatings (history.take window)).sum / (window : ℚ) := by
      rw [listAvg, castRatings, List.length_map, List.length_take,
        Nat.min_eq_left hwin]
    have e2 : listAvg (castRatings
          (history.drop (history.length - window))) =
        (castRatings (history.drop (history.length - window))).sum /
          (window : ℚ) := by
      rw [listAvg, castRatings, List.length_map, List.length_drop,
        (by omega : history.length - (history.length - window) = window)]
    rw [e1, e2]
    split_ifs <;> first | rfl | linarith
  · norm_num [ratingTrend, castRatings, List.sum_cons, List.sum_nil]
  · norm_num [averageRating, castRatings, List.sum_cons, List.sum_nil]
    exact fun hc => List.noConfusion hc

/-- C9 witness: the worked example conjunct obtained from the trend
characterisation with its window hypothesis discharged at window 1. -/
theorem ratingTrend_spec_witness :
    ratingTrend [2, 2, 2, 2, 2, 4, 4, 4, 4, 4] 5 = "improving" :=
  (ratingTrend_spec [] 1 (by norm_num)).2.2.1

/-- C10 counterexample: on the non-empty one-record log, average_rating
called with lastN -1 slices the log to its tail, which is empty, and
returns the empty indicator although the log is not empty. -/
theorem averageRating_negative_lastN_cex :
    averageRating (some (-1)) [3] = none ∧ ([3] : List ℤ) ≠ [] := by
  exact ⟨rfl, by decide⟩

/-- C10 amended: lastN 0 is falsy in the source, so it selects the whole
log exactly like the missing argument, and for every non-empty log that
call returns the mean over all records; the empty indicator is returned
exactly on the empty log for lastN missing, zero or positive, while a
negative lastN can return it on a non-empty log. -/
theorem averageRating_spec (history : List ℤ) :
    averageRating (some 0) history = averageRating none history ∧
    (history ≠ [] → averageRating none history =
      some ((castRatings history).sum / (history.length : ℚ))) ∧
    (averageRating none history = none ↔ history = []) ∧
    (∀ n : ℤ, 1 ≤ n →
      (averageRating (some n) history = none ↔ history = [])) := by
  refine ⟨rfl, ?_, ?_, ?_⟩
  · intro hne
    simp only [averageRating]
    rw [if_neg hne]
  · constructor
    · intro h
      by_contra hne
      simp only [averageRating] at h
      rw [if_neg hne] at h
      exact Option.noConfusion h
    · intro he
      subst he
      rfl
  · intro n hn
    constructor
    · intro h
      by_contra hne
      have hd : pySliceFrom history (-n) ≠ [] := by
        simp only [pySliceFrom]
        rw [if_pos (by omega : -n < 0)]
        intro hdrop
        rw [List.drop_eq_nil_iff_le] at hdrop
        have hlen : 0 < history.length := List.length_pos.2 hne
        omega
      simp only [averageRating] at h
      rw [if_neg (by omega : ¬ n = 0), if_neg hd] at h
      exact Option.noConfusion h
    · intro he
      subst he
      simp only [averageRating, pySliceFrom]
      rw [if_neg (by omega : ¬ n = 0)]
      simp

/-- C10 witness: the mean clause of the characterisation at the concrete
log [1, 2, 3]. -/
theorem averageRating_spec_witness :
    ([1, 2, 3] : List ℤ) ≠ [] ∧
    averageRating none [1, 2, 3] =
      some ((castRatings [1, 2, 3]).sum /
        ((([1, 2, 3] : List ℤ).length : ℚ))) :=
  ⟨by decide, (averageRating_spec [1, 2, 3]).2.1 (by decide)⟩

end SentimentAssistant
